import Mathlib

/-!
Shallow embedding of `src/app/settings.go` of the fyne repository: the
`settings` store, its persisted `SettingsSchema`, and the operations the
store exposes (scale reading, animations, theme selection, change
notification fan-out, reload, and system-theme loading).

Mutation of the Go struct is modelled as explicit state passing on
`SettingsState`; the `float32` scale field is modelled as a rational, since
the code only compares it with zero and returns it unchanged; goroutines
spawned by the fan-out loop are recorded in the `pendingSends` field of the
state; functions that may log a diagnostic return a `Bool` flag alongside
their value.
-/

namespace FyneSettings

/-- Themes are interface values (`fyne.Theme`) in the source; we model them
as an inductive distinguishing the built-in default theme, a theme parsed
from a user JSON document, and any other caller-supplied theme value. -/
inductive FyneTheme
  | defaultTheme
  | parsed (doc : String)
  | custom (id : Nat)
deriving DecidableEq, Repr

/-- Modelled from the spec: the light `fyne.ThemeVariant` identifier.  The
variant constants are declared outside `src/`; only their distinctness
matters to the claims. -/
def VariantLight : Nat := 0

/-- Modelled from the spec: the dark `fyne.ThemeVariant` identifier. -/
def VariantDark : Nat := 1

/-- The persisted settings document, `SettingsSchema` in the source. -/
structure SettingsSchema where
  ThemeName : String
  Scale : ℚ
  PrimaryColor : String
  CloudName : String
  CloudConfig : String
  DisableAnimations : Bool
deriving DecidableEq, Repr

/-- A subscriber channel (`chan fyne.Settings`): every message sent on it is
the store reference itself, so only the buffer capacity and the number of
buffered messages matter. -/
structure Chan where
  capacity : Nat
  pending : Nat
deriving DecidableEq, Repr

/-- The in-memory `settings` struct.  `listeners` is the registered
subscriber channels (`changeListeners`); `pendingSends` records, per spawned
goroutine, the channel on which a blocking send is still outstanding. -/
structure SettingsState where
  theme : FyneTheme
  themeSpecified : Bool
  variant : Nat
  listeners : List Chan
  pendingSends : List Chan
  schema : SettingsSchema
deriving DecidableEq, Repr

/-- One iteration of the fan-out loop body: the non-blocking `select` send.
If the channel can accept the message it is delivered immediately (`true`);
otherwise nothing is sent from the loop (`false`). -/
def notifyOne (c : Chan) : Chan × Bool :=
  if c.pending < c.capacity then ({ c with pending := c.pending + 1 }, true)
  else (c, false)

/-- `settings.apply`: range over every registered listener, try a
non-blocking send; on the `default` branch spawn a goroutine holding the
blocking send, recorded in `pendingSends`. -/
def apply (s : SettingsState) : SettingsState :=
  { s with
      listeners := s.listeners.map fun c => (notifyOne c).1,
      pendingSends := s.pendingSends ++ s.listeners.filter fun c => !(notifyOne c).2 }

/-- `settings.applyTheme`: under the write lock set `variant` and `theme`,
then run the fan-out. -/
def applyTheme (s : SettingsState) (t : FyneTheme) (v : Nat) : SettingsState :=
  apply { s with variant := v, theme := t }

/-- `settings.applyVariant`: set only the variant, then fan out. -/
def applyVariant (s : SettingsState) (v : Nat) : SettingsState :=
  apply { s with variant := v }

/-- `settings.SetTheme`: mark the theme as explicitly specified, then apply
the given theme with the store's current variant. -/
def SetTheme (s : SettingsState) (t : FyneTheme) : SettingsState :=
  applyTheme { s with themeSpecified := true } t s.variant

/-- `settings.Theme` with its defensive nil-receiver check: the receiver is
an `Option SettingsState`; the `Bool` records whether the diagnostic
("no app is started") was logged.  The method takes only a read lock, so the
state is not changed. -/
def Theme : Option SettingsState → Option FyneTheme × Bool
  | none => (none, true)
  | some s => (some s.theme, false)

/-- `settings.ShowAnimations`; the package-level `noAnimations` build flag is
passed explicitly. -/
def ShowAnimations (s : SettingsState) (noAnimations : Bool) : Bool :=
  !s.schema.DisableAnimations && !noAnimations

/-- `settings.ThemeVariant`. -/
def ThemeVariant (s : SettingsState) : Nat :=
  s.variant

/-- `settings.PrimaryColor`. -/
def PrimaryColor (s : SettingsState) : String :=
  s.schema.PrimaryColor

/-- `settings.Scale`: a read-only accessor (it takes only the read lock), so
it is modelled as returning the observed value together with the unchanged
state.  Values below zero (the legacy `-1` "auto" marker) are coerced to `1`
on read. -/
def Scale (s : SettingsState) : ℚ × SettingsState :=
  if s.schema.Scale < 0 then (1, s) else (s.schema.Scale, s)

/-- `settings.AddChangeListener`: register one more subscriber channel. -/
def AddChangeListener (s : SettingsState) (c : Chan) : SettingsState :=
  { s with listeners := s.listeners ++ [c] }

/-- `settings.OverrideTheme`: under the write lock set the schema's primary
colour and the theme field directly; no fan-out is run. -/
def OverrideTheme (s : SettingsState) (t : FyneTheme) (name : String) : SettingsState :=
  { s with
      schema := { s.schema with PrimaryColor := name },
      theme := t }

/-- Modelled from the spec: `settings.load` is defined outside `src/`; per
the spec it re-reads the settings file into the schema, refreshing only the
schema-derived scalar properties, and leaves the in-memory theme, variant
and override flag untouched.  The freshly decoded schema is an argument. -/
def load (s : SettingsState) (newSchema : SettingsSchema) : SettingsState :=
  { s with schema := newSchema }

/-- `settings.fileChanged`: reload the schema, then fan out a notification. -/
def fileChanged (s : SettingsState) (newSchema : SettingsSchema) : SettingsState :=
  apply (load s newSchema)

/-- The outcome of `fyne.LoadResourceFromPath` on the user theme document:
the file does not exist, some other read error occurred, or a resource was
returned (whose data, and whose content, may each be nil). -/
inductive LoadOutcome
  | errNotExist
  | errOther
  | okData (data : Option (Option String))
deriving DecidableEq, Repr

/-- `settings.loadSystemTheme`: the read outcome and the JSON theme decoder
(`theme.FromJSONReader`, `none` on a parse error) are passed in, since both
live outside this file in the source.  The `Bool` records whether a
diagnostic was logged.  Absence of the file is silent; any other read
failure or a parse failure is logged; every failure path returns the
built-in default theme, and no error is ever returned to the caller. -/
def loadSystemTheme (res : LoadOutcome) (parse : String → Option FyneTheme) :
    FyneTheme × Bool :=
  match res with
  | .errNotExist => (.defaultTheme, false)
  | .errOther => (.defaultTheme, true)
  | .okData none => (.defaultTheme, false)
  | .okData (some none) => (.defaultTheme, false)
  | .okData (some (some content)) =>
    match parse content with
    | some th => (th, false)
    | none => (.defaultTheme, true)

/-- `settings.setupTheme`: the `FYNE_THEME` environment value, the platform
default variant (`app.DefaultVariant()`), and the inputs of
`loadSystemTheme` are passed explicitly. -/
def setupTheme (s : SettingsState) (envFyneTheme : String) (defaultVariant : Nat)
    (res : LoadOutcome) (parse : String → Option FyneTheme) : SettingsState :=
  let name := if envFyneTheme ≠ "" then envFyneTheme else s.schema.ThemeName
  let effectiveTheme := if s.themeSpecified then s.theme else (loadSystemTheme res parse).1
  let variant :=
    if name = "light" then VariantLight
    else if name = "dark" then VariantDark
    else defaultVariant
  applyTheme s effectiveTheme variant

/-- Follows the spec's words for C3: the variant a candidate theme name
determines — "light" gives the light variant, "dark" the dark one, anything
else leaves the platform default unchanged. -/
def specVariantForName (name : String) (platformDefault : Nat) : Nat :=
  if name = "light" then VariantLight
  else if name = "dark" then VariantDark
  else platformDefault

/-- A concrete schema used by the witnesses. -/
def baseSchema : SettingsSchema :=
  { ThemeName := "", Scale := 1, PrimaryColor := "blue", CloudName := "",
    CloudConfig := "", DisableAnimations := false }

/-- A concrete store state used by the witnesses. -/
def baseState : SettingsState :=
  { theme := .defaultTheme, themeSpecified := false, variant := 0,
    listeners := [], pendingSends := [], schema := baseSchema }

/-- A store whose persisted scale is exactly `0`. -/
def scaleZeroState : SettingsState :=
  { baseState with schema := { baseSchema with Scale := 0 } }

/-- A store whose persisted scale is the legacy `-1` marker. -/
def scaleNegState : SettingsState :=
  { baseState with schema := { baseSchema with Scale := -1 } }

/-- A subscriber channel with free buffer space. -/
def chanFree : Chan :=
  { capacity := 1, pending := 0 }

/-- An unbuffered subscriber channel with no receiver ready: a non-blocking
send to it fails. -/
def chanFull : Chan :=
  { capacity := 0, pending := 0 }

/-- A store with one accepting and one full subscriber channel. -/
def fanoutState : SettingsState :=
  { baseState with listeners := [chanFree, chanFull] }

/-- C1: counterexample — the claim says a persisted scale `v ≤ 0` is read
back as exactly `1.0` and the observed value is always `> 0`; but the source
tests `s.schema.Scale < 0.0`, so with a persisted scale of exactly `0` the
read returns `0`, not `1.0`, and the observed value is not positive. -/
theorem scale_claim_counterexample :
    scaleZeroState.schema.Scale ≤ 0 ∧ (Scale scaleZeroState).1 ≠ 1 ∧
      ¬ 0 < (Scale scaleZeroState).1 := by
  decide

/-- C1 (amended): `Scale` returns exactly `1.0` when the stored scale `v`
satisfies `v < 0`, and returns `v` unchanged when `v ≥ 0`; hence the
observed value is always `≥ 0`, and the read never modifies the store (in
particular the raw persisted `schema.Scale` field is preserved). -/
theorem scale_amended (s : SettingsState) :
    (s.schema.Scale < 0 → (Scale s).1 = 1) ∧
    (0 ≤ s.schema.Scale → (Scale s).1 = s.schema.Scale) ∧
    0 ≤ (Scale s).1 ∧ (Scale s).2 = s := by
  unfold Scale
  by_cases h : s.schema.Scale < 0
  · exact ⟨fun _ => by simp [h], fun h2 => absurd h (not_lt.mpr h2), by simp [h], by simp [h]⟩
  · exact ⟨fun h2 => absurd h2 h, fun _ => by simp [h], by simp [h, le_of_not_lt h], by simp [h]⟩

/-- C1 (amended) at concrete inputs: a store persisting `-1` reads back as
scale `1`, and a store persisting `0` reads back its raw value `0`. -/
theorem scale_amended_witness :
    (Scale scaleNegState).1 = 1 ∧ (Scale scaleZeroState).1 = scaleZeroState.schema.Scale :=
  ⟨(scale_amended scaleNegState).1 (by decide),
   (scale_amended scaleZeroState).2.1 (by decide)⟩

/-- C2: the fan-out loop handles every registered subscriber channel with a
single non-blocking attempt — the loop never waits: it finishes over all
listeners (the listener list keeps its length), a channel with buffer space
receives the message immediately, and a full channel is left for an
independently spawned goroutine holding the blocking send (recorded in
`pendingSends`), so the update is never dropped and the loop never blocks on
a non-receiving subscriber. -/
theorem apply_fanout_nonblocking (s : SettingsState) (c : Chan) (h : c ∈ s.listeners) :
    (apply s).listeners.length = s.listeners.length ∧
    (c.pending < c.capacity →
      { c with pending := c.pending + 1 } ∈ (apply s).listeners) ∧
    (¬ c.pending < c.capacity →
      c ∈ (apply s).listeners ∧ c ∈ (apply s).pendingSends) := by
  refine ⟨by simp [apply], ?_, ?_⟩
  · intro hlt
    have hn : (notifyOne c).1 = { c with pending := c.pending + 1 } := by
      simp [notifyOne, hlt]
    simp only [apply, List.mem_map]
    exact ⟨c, h, hn⟩
  · intro hge
    have h1 : (notifyOne c).1 = c := by simp [notifyOne, hge]
    have h2 : (notifyOne c).2 = false := by simp [notifyOne, hge]
    refine ⟨?_, ?_⟩
    · simp only [apply, List.mem_map]
      exact ⟨c, h, h1⟩
    · simp only [apply, List.mem_append]
      exact Or.inr (List.mem_filter.mpr ⟨h, by simp [h2]⟩)

/-- C2 at a concrete store with one accepting and one full channel: the
accepting channel gains the message, the full one gets a pending blocking
send. -/
theorem apply_fanout_nonblocking_witness :
    { chanFree with pending := chanFree.pending + 1 } ∈ (apply fanoutState).listeners ∧
    chanFull ∈ (apply fanoutState).pendingSends :=
  ⟨(apply_fanout_nonblocking fanoutState chanFree (by decide)).2.1 (by decide),
   ((apply_fanout_nonblocking fanoutState chanFull (by decide)).2.2 (by decide)).2⟩

/-- C3: after `setupTheme`, the stored variant is exactly the one the spec's
name-to-variant mapping assigns to the candidate name, where the candidate
is the environment override when non-empty and the schema's persisted name
otherwise: "light" gives the light variant, "dark" the dark one, and any
other name (the empty string included) leaves the platform default
unchanged. -/
theorem setupTheme_variant_mapping (s : SettingsState) (env : String) (dv : Nat)
    (res : LoadOutcome) (parse : String → Option FyneTheme) :
    (setupTheme s env dv res parse).variant =
      specVariantForName (if env ≠ "" then env else s.schema.ThemeName) dv := rfl

/-- C4: after `SetTheme t`, `Theme` returns `t`; a later `fileChanged`
reload keeps the theme, the variant and the override flag unchanged (it only
refreshes the schema and re-notifies); and the sticky flag makes any later
`setupTheme` keep `t` instead of resolving a system theme. -/
theorem setTheme_sticky (s : SettingsState) (t : FyneTheme)
    (newSchema : SettingsSchema) (env : String) (dv : Nat)
    (res : LoadOutcome) (parse : String → Option FyneTheme) :
    Theme (some (SetTheme s t)) = (some t, false) ∧
    (fileChanged (SetTheme s t) newSchema).theme = t ∧
    (fileChanged (SetTheme s t) newSchema).variant = (SetTheme s t).variant ∧
    (fileChanged (SetTheme s t) newSchema).themeSpecified = true ∧
    (setupTheme (fileChanged (SetTheme s t) newSchema) env dv res parse).theme = t :=
  ⟨rfl, rfl, rfl, rfl, rfl⟩

/-- C5: `ShowAnimations` is `false` exactly when the schema disables
animations or the global no-animations flag is set (all four truth-table
combinations, since both booleans are universally quantified). -/
theorem showAnimations_iff (s : SettingsState) (g : Bool) :
    ShowAnimations s g = false ↔ (s.schema.DisableAnimations = true ∨ g = true) := by
  cases hd : s.schema.DisableAnimations <;> cases g <;> simp [ShowAnimations, hd]

/-- C6: `loadSystemTheme` always returns a theme (its result type carries no
error): absence of the file yields the built-in default silently, any other
read failure yields the default with a logged diagnostic, and
present-but-unparseable content yields the default with a logged
diagnostic. -/
theorem loadSystemTheme_degrades (parse : String → Option FyneTheme) (content : String) :
    loadSystemTheme .errNotExist parse = (.defaultTheme, false) ∧
    loadSystemTheme .errOther parse = (.defaultTheme, true) ∧
    (parse content = none →
      loadSystemTheme (.okData (some (some content))) parse = (.defaultTheme, true)) := by
  refine ⟨rfl, rfl, fun hp => ?_⟩
  simp [loadSystemTheme, hp]

/-- C6 at a concrete input: content that fails to parse degrades to the
default theme with a logged diagnostic. -/
theorem loadSystemTheme_degrades_witness :
    loadSystemTheme (.okData (some (some "nonsense"))) (fun _ => none) =
      (.defaultTheme, true) :=
  (loadSystemTheme_degrades (fun _ => none) "nonsense").2.2 rfl

/-- C7: `SetTheme t` sets the override flag, stores `t` with the current
variant unchanged, and its whole effect is exactly a notification fan-out
over the flagged-and-themed store (so notification is triggered); a repeated
call keeps the flag `true`. -/
theorem setTheme_effects (s : SettingsState) (t u : FyneTheme) :
    (SetTheme s t).themeSpecified = true ∧
    (SetTheme s t).theme = t ∧
    (SetTheme s t).variant = s.variant ∧
    SetTheme s t = apply { s with themeSpecified := true, theme := t } ∧
    (SetTheme (SetTheme s t) u).themeSpecified = true :=
  ⟨rfl, rfl, rfl, rfl, rfl⟩

/-- C8: `OverrideTheme t name` writes the primary colour and the theme field
directly, and bypasses notification: the subscriber channels are untouched
and no blocking-send goroutine is spawned. -/
theorem overrideTheme_no_notification (s : SettingsState) (t : FyneTheme) (name : String) :
    (OverrideTheme s t name).schema.PrimaryColor = name ∧
    (OverrideTheme s t name).theme = t ∧
    (OverrideTheme s t name).listeners = s.listeners ∧
    (OverrideTheme s t name).pendingSends = s.pendingSends :=
  ⟨rfl, rfl, rfl, rfl⟩

/-- C9: `Theme` on a nil store returns null with a logged diagnostic rather
than crashing; on a non-nil store it returns the current effective theme
with no diagnostic (and, being a pure read, no side effect on the store). -/
theorem theme_nil_receiver (s : SettingsState) :
    Theme none = (none, true) ∧ Theme (some s) = (some s.theme, false) :=
  ⟨rfl, rfl⟩

/-- C10: `OverrideTheme` leaves the override flag, the variant, and every
schema field other than `PrimaryColor` unchanged; and on a store where
`SetTheme` was never called (flag still `false`), a subsequent `setupTheme`
discards the previewed theme in favour of the loaded system theme or the
built-in default. -/
theorem overrideTheme_frame_setup (s : SettingsState) (t : FyneTheme) (name : String)
    (env : String) (dv : Nat) (res : LoadOutcome) (parse : String → Option FyneTheme) :
    (OverrideTheme s t name).themeSpecified = s.themeSpecified ∧
    (OverrideTheme s t name).variant = s.variant ∧
    (OverrideTheme s t name).schema.ThemeName = s.schema.ThemeName ∧
    (OverrideTheme s t name).schema.Scale = s.schema.Scale ∧
    (OverrideTheme s t name).schema.CloudName = s.schema.CloudName ∧
    (OverrideTheme s t name).schema.CloudConfig = s.schema.CloudConfig ∧
    (OverrideTheme s t name).schema.DisableAnimations = s.schema.DisableAnimations ∧
    (s.themeSpecified = false →
      (setupTheme (OverrideTheme s t name) env dv res parse).theme =
        (loadSystemTheme res parse).1) := by
  refine ⟨rfl, rfl, rfl, rfl, rfl, rfl, rfl, fun hns => ?_⟩
  simp [setupTheme, applyTheme, apply, OverrideTheme, hns]

/-- C10 at a concrete input: a previewed theme on a never-overridden store
is discarded by `setupTheme` for the system-resolved theme. -/
theorem overrideTheme_frame_setup_witness :
    (setupTheme (OverrideTheme baseState (FyneTheme.custom 7) "red") "" 0
        LoadOutcome.errNotExist (fun _ => none)).theme =
      (loadSystemTheme LoadOutcome.errNotExist (fun _ => none)).1 :=
  (overrideTheme_frame_setup baseState (FyneTheme.custom 7) "red" "" 0
      LoadOutcome.errNotExist (fun _ => none)).2.2.2.2.2.2.2 rfl

end FyneSettings
